import Mathlib

/-!
Shallow embedding of the sales/order subsystem of the mini-pos-api backend.

The embedding follows the Python sources:
  * `services/database/sales.py` — class `SalesDataService` (order-id generation,
    transactional sale creation, status update, cancellation, detail reads,
    list/count queries, analytics aggregation);
  * `services/sales_service.py` — class `SalesService` (the business-rule layer);
  * `routers/sales.py` — only as the caller of the service layer.

Modelling conventions:
  * The relational store is a `DBState` record holding the `order_counter`
    value and the `sales`, `sales_items`, `receipts` and `local_products`
    tables as lists of rows.
  * `NUMERIC` money columns are rationals (`Money := ℚ`); timestamps are
    integers; SQL string comparison is Lean `String` equality.
  * Each Python coroutine becomes a pure function `DBState → ... → result × DBState`.
  * A Python call that can either return a value or raise is modelled with
    `PyOutcome`: `ret v` is a normal return, `exn e` a propagated exception.
  * Failure of an INSERT inside the `create_sale` transaction is modelled by
    an explicit injection point `failAt : Option Nat` (0 = the sale insert,
    1..k = the k item inserts, k+1 = the receipt insert; any other value means
    no insert fails).  A transaction that fails is rolled back: the state
    reverts to the snapshot taken when the transaction began.
-/

abbrev Money := ℚ

/-- Result alternative of a Python coroutine: a normal return or a raised
exception that propagates to the caller. -/
inductive PyOutcome (α : Type) where
  | ret : α → PyOutcome α
  | exn : String → PyOutcome α
deriving DecidableEq, Repr

/-- The value returned by `SalesDataService.create_sale`: the generated
`order_id` string on success, or the Python literal `False` that the
`except` branch returns after catching a persistence error. -/
inductive CreateSaleValue where
  | oid : String → CreateSaleValue
  | falseVal : CreateSaleValue
deriving DecidableEq, Repr

/-- `f"ORD-{last_number}"` -/
def ordIdStr (n : Nat) : String := "ORD-" ++ toString n

/-- A row of the `sales` table. -/
structure SaleRow where
  id : Nat
  order_id : String
  user_id : Int
  total_amount : Money
  currency : String
  status : String
  created_at : Int
  updated_at : Int
deriving DecidableEq, Repr

/-- A row of the `sales_items` table (the surrogate `id` column is never read
by the embedded queries and is omitted). -/
structure SaleItemRow where
  sale_id : Nat
  product_id : Int
  quantity : Int
  price : Money
  cost_price : Money
  total : Money
  product_name : Option String
  barcode : Option String
deriving DecidableEq, Repr

/-- A row of the `receipts` table, with the columns `create_sale` writes. -/
structure ReceiptRow where
  order_id : String
  user_id : Int
  total_amount : Money
  payment_method : String
deriving DecidableEq, Repr

/-- The columns of `local_products` that the sales queries read. -/
structure ProductRow where
  id : Int
  sku_name : String
  price : Money
  barcode : Option String
deriving DecidableEq, Repr

/-- The database state touched by the sales subsystem.  `counter` is the
`order_counter.last_number` singleton (seeded at 10000); `nextSaleId` models
the `sales.id` serial. -/
structure DBState where
  counter : Nat
  nextSaleId : Nat
  sales : List SaleRow
  sales_items : List SaleItemRow
  receipts : List ReceiptRow
  local_products : List ProductRow
deriving DecidableEq, Repr

/-- One element of the `items: List[SaleItem]` argument of `create_sale`,
with the fields the data service reads off it. -/
structure SaleItemInput where
  product_id : Int
  quantity : Int
  price : Money
  cost_price : Money
  product_name : Option String
  barcode : Option String
deriving DecidableEq, Repr

/-- Modelled from the spec: the pydantic request model `SaleItem` is imported
from `core.models`, whose definition with these validators is not among the
sources here; per the spec (§4.2 preconditions and §7 error taxonomy) each
item must have `quantity > 0` and non-negative `price`/`cost_price`, and a
violation is rejected as a validation error before any persistence attempt.
`none` models the rejection. -/
def SaleItem.parse (product_id quantity : Int) (price cost_price : Money)
    (product_name barcode : Option String) : Option SaleItemInput :=
  if 0 < quantity ∧ 0 ≤ price ∧ 0 ≤ cost_price then
    some { product_id := product_id, quantity := quantity, price := price,
           cost_price := cost_price, product_name := product_name, barcode := barcode }
  else
    none

/-! ### Generic list helpers used by the query embeddings -/

/-- Insert into a list sorted by the boolean comparison `le`. -/
def insertSorted (le : α → α → Bool) (a : α) : List α → List α
  | [] => [a]
  | b :: bs => if le a b then a :: b :: bs else b :: insertSorted le a bs

/-- Insertion sort by the boolean comparison `le` (models an `ORDER BY`). -/
def sortL (le : α → α → Bool) (xs : List α) : List α :=
  xs.foldr (insertSorted le) []

/-- Does `hay` start with `needle`? -/
def startsList : List Char → List Char → Bool
  | _, [] => true
  | [], _ :: _ => false
  | c :: cs, d :: ds => c == d && startsList cs ds

/-- Does `hay` contain `needle` as a contiguous run? -/
def containsSub : List Char → List Char → Bool
  | [], needle => needle.isEmpty
  | c :: cs, needle => startsList (c :: cs) needle || containsSub cs needle

/-! ### SalesDataService (services/database/sales.py) -/

namespace SalesDataService

/-- `generate_order_id`: runs `UPDATE order_counter SET last_number =
last_number + 1 RETURNING last_number` in a transaction of its own and
returns `f"ORD-{last_number}"`.  The increment is committed when the function
returns. -/
def generate_order_id (st : DBState) : String × DBState :=
  (ordIdStr (st.counter + 1), { st with counter := st.counter + 1 })

/-- `total_amount = sum(item.price * item.quantity for item in items)` -/
def saleTotal (items : List SaleItemInput) : Money :=
  (items.map (fun it => it.price * (it.quantity : Money))).sum

/-- The scalar subquery `(SELECT id FROM sales WHERE order_id = $1)` used by
each item insert: it yields a value only when exactly one row matches
(zero rows give NULL and a failing FK, several rows abort the statement). -/
def findSaleId (sales : List SaleRow) (oid : String) : Option Nat :=
  match sales.filter (fun r => r.order_id == oid) with
  | [r] => some r.id
  | _ => none

/-- Does the injection point `failAt` hit one of the `numItems + 2` inserts
executed inside the `create_sale` transaction? -/
def injectedFail (numItems : Nat) (failAt : Option Nat) : Bool :=
  match failAt with
  | none => false
  | some j => decide (j < numItems + 2)

/-- The `sales_items` row written for one input item: it stores
`total = price * quantity` and snapshots `product_name`/`barcode`. -/
def mkItemRow (sid : Nat) (it : SaleItemInput) : SaleItemRow :=
  { sale_id := sid, product_id := it.product_id, quantity := it.quantity,
    price := it.price, cost_price := it.cost_price,
    total := it.price * (it.quantity : Money),
    product_name := it.product_name, barcode := it.barcode }

/-- `create_sale(user_id, items, currency, payment_method, status)`:
obtains an order id (committed separately by `generate_order_id`), computes
the total, then inside one transaction inserts the sale row, one
`sales_items` row per item (each with `total = price * quantity`) and the
receipt row.  Any exception — a failing insert (injected via `failAt`) or
the UNIQUE(order_id) violation on the sale insert — rolls the transaction
back and is caught by the `except` branch, which returns `False`. -/
def create_sale (st : DBState) (now : Int) (user_id : Int)
    (items : List SaleItemInput) (currency payment_method status : String)
    (failAt : Option Nat) : PyOutcome CreateSaleValue × DBState :=
  let gen := generate_order_id st
  let oid := gen.1
  let st1 := gen.2
  let total_amount := saleTotal items
  let row : SaleRow :=
    { id := st1.nextSaleId, order_id := oid, user_id := user_id,
      total_amount := total_amount, currency := currency, status := status,
      created_at := now, updated_at := now }
  let salesMid := st1.sales ++ [row]
  if st1.sales.any (fun r => r.order_id == oid) || injectedFail items.length failAt then
    (.ret .falseVal, st1)
  else
    match findSaleId salesMid oid with
    | none => (.ret .falseVal, st1)
    | some sid =>
      let newItems := items.map (mkItemRow sid)
      let receipt : ReceiptRow :=
        { order_id := oid, user_id := user_id, total_amount := total_amount,
          payment_method := payment_method }
      (.ret (.oid oid),
       { st1 with nextSaleId := st1.nextSaleId + 1,
                  sales := salesMid,
                  sales_items := st1.sales_items ++ newItems,
                  receipts := st1.receipts ++ [receipt] })

/-- `update_sale_status`: `UPDATE sales SET status = $1 WHERE order_id = $2`,
returning `result == "UPDATE 1"`, i.e. whether exactly one row was updated. -/
def update_sale_status (st : DBState) (order_id status : String) : Bool × DBState :=
  let matched := st.sales.filter (fun r => r.order_id == order_id)
  let updated := st.sales.map (fun r =>
    if r.order_id == order_id then { r with status := status } else r)
  (matched.length == 1, { st with sales := updated })

/-- `cancel_sale`: `DELETE FROM sales WHERE order_id = $1`, returning
`result == "DELETE 1"`.  Deleting a sale cascades to its `sales_items`
rows (FK with ON DELETE CASCADE per the schema in the spec, §6). -/
def cancel_sale (st : DBState) (order_id : String) : Bool × DBState :=
  let removed := st.sales.filter (fun r => r.order_id == order_id)
  let kept := st.sales.filter (fun r => !(r.order_id == order_id))
  let keptItems := st.sales_items.filter (fun i =>
    !(removed.any (fun r => r.id == i.sale_id)))
  (removed.length == 1, { st with sales := kept, sales_items := keptItems })

/-- Row shape of the items query in `get_sale_details`: `si.*` plus the
`p.sku_name` recovered by the LEFT JOIN against `local_products`. -/
structure SaleItemDetail where
  sale_id : Nat
  product_id : Int
  quantity : Int
  price : Money
  cost_price : Money
  total : Money
  product_name : Option String
  barcode : Option String
  sku_name : Option String
deriving DecidableEq, Repr

/-- The nested dictionary assembled by `get_sale_details`. -/
structure SaleDetails where
  order_id : String
  user_id : Int
  total_amount : Money
  currency : String
  status : String
  created_at : Int
  updated_at : Int
  items : List SaleItemDetail
deriving DecidableEq, Repr

/-- `get_sale_details(order_id)`: fetch the sale row (None when absent),
then its items left-joined with `local_products` for `sku_name`. -/
def get_sale_details (st : DBState) (order_id : String) : Option SaleDetails :=
  match st.sales.find? (fun r => r.order_id == order_id) with
  | none => none
  | some sale =>
    let items := (st.sales_items.filter (fun i => i.sale_id == sale.id)).map (fun i =>
      ({ sale_id := i.sale_id, product_id := i.product_id, quantity := i.quantity,
         price := i.price, cost_price := i.cost_price, total := i.total,
         product_name := i.product_name, barcode := i.barcode,
         sku_name := (st.local_products.find? (fun p => p.id == i.product_id)).map
           (fun p => p.sku_name) } : SaleItemDetail))
    some { order_id := sale.order_id, user_id := sale.user_id,
           total_amount := sale.total_amount, currency := sale.currency,
           status := sale.status, created_at := sale.created_at,
           updated_at := sale.updated_at, items := items }

/-- The `order_id ILIKE '%search%'` clause, added only when `search` is
truthy: case-insensitive substring match. -/
def searchPass (search : Option String) (oid : String) : Bool :=
  match search with
  | none => true
  | some s => s.isEmpty || containsSub oid.toLower.data s.toLower.data

/-- The inclusive `created_at >= start_date` / `created_at <= end_date`
clauses, each added only when the bound is present. -/
def datePass (sd ed : Option Int) (t : Int) : Bool :=
  (match sd with | none => true | some a => decide (a ≤ t)) &&
  (match ed with | none => true | some b => decide (t ≤ b))

/-- The WHERE clause shared by `get_sales_count` and `get_sales`. -/
def rowMatches (user_id : Int) (search : Option String) (sd ed : Option Int)
    (r : SaleRow) : Bool :=
  r.user_id == user_id && searchPass search r.order_id && datePass sd ed r.created_at

/-- `get_sales_count(user_id, start_date, end_date, search)`:
`SELECT COUNT(*) FROM sales` with the same filters as `get_sales`. -/
def get_sales_count (st : DBState) (user_id : Int) (sd ed : Option Int)
    (search : Option String) : Nat :=
  (st.sales.filter (rowMatches user_id search sd ed)).length

/-- The ORDER BY allow-list. -/
def valid_columns : List String :=
  ["id", "order_id", "total_amount", "currency", "status", "created_at"]

/-- Column comparison for the ORDER BY clause. -/
def colLe (col : String) (a b : SaleRow) : Bool :=
  if col = "order_id" then decide (a.order_id ≤ b.order_id)
  else if col = "total_amount" then decide (a.total_amount ≤ b.total_amount)
  else if col = "currency" then decide (a.currency ≤ b.currency)
  else if col = "status" then decide (a.status ≤ b.status)
  else if col = "created_at" then decide (a.created_at ≤ b.created_at)
  else decide (a.id ≤ b.id)

/-- The ORDER BY step of `get_sales`: a `sort_by` that is falsy or outside
the allow-list silently falls back to `ORDER BY id ASC`; otherwise the
direction is ASC exactly when `sort_order.lower() == "asc"`. -/
def sortedSales (rows : List SaleRow) (sort_by : Option String)
    (sort_order : String) : List SaleRow :=
  match sort_by with
  | some col =>
    if !col.isEmpty && valid_columns.contains col then
      if sort_order.toLower == "asc" then sortL (colLe col) rows
      else sortL (fun a b => colLe col b a) rows
    else sortL (colLe "id") rows
  | none => sortL (colLe "id") rows

/-- Item row as returned by the batched items query of `get_sales`:
`si.*` with `product_name` and `barcode` overridden by
`COALESCE(p.sku_name, si.product_name)` / `COALESCE(p.barcode, si.barcode)`. -/
def enrichItem (st : DBState) (i : SaleItemRow) : SaleItemRow :=
  match st.local_products.find? (fun p => p.id == i.product_id) with
  | some p => { i with product_name := some p.sku_name,
                       barcode := (p.barcode).or i.barcode }
  | none => i

/-- A sale dictionary of the `get_sales` page after the in-memory grouping
attached its `items` list. -/
structure ListedSale where
  sale : SaleRow
  items : List SaleItemRow
deriving DecidableEq, Repr

/-- `get_sales(user_id, skip, limit, search, sort_by, sort_order, start_date,
end_date)`: filtered, sorted page via `LIMIT $n OFFSET $m`, then one batched
items query grouped in memory by sale.  PostgreSQL rejects a negative LIMIT
or OFFSET, which surfaces as a raised error (`except` re-raises). -/
def get_sales (st : DBState) (user_id : Int) (skip limit : Int)
    (search sort_by : Option String) (sort_order : String)
    (sd ed : Option Int) : PyOutcome (List ListedSale) :=
  if limit < 0 || skip < 0 then
    .exn "LIMIT/OFFSET must not be negative"
  else
    let rows := sortedSales (st.sales.filter (rowMatches user_id search sd ed))
      sort_by sort_order
    let page := (rows.drop skip.toNat).take limit.toNat
    .ret (page.map (fun r =>
      { sale := r,
        items := (st.sales_items.filter (fun i => i.sale_id == r.id)).map
          (enrichItem st) }))

/-- Round half away from zero, as PostgreSQL `ROUND` does on NUMERIC. -/
def roundHalf (x : ℚ) : Int :=
  if 0 ≤ x then Int.fdiv (x + 1/2).num ((x + 1/2).den : Int)
  else -(Int.fdiv (-x + 1/2).num ((-x + 1/2).den : Int))

/-- `ROUND(x, 2)`: round to two decimal places, half away from zero. -/
def round2 (x : ℚ) : ℚ := (roundHalf (x * 100) : ℚ) / 100

/-- The window predicate `user_id = $1 AND created_at BETWEEN $2 AND $3`
repeated by every CTE of the analytics query.  A NULL bound makes the
BETWEEN non-true, so no row qualifies. -/
def inWindowB (user_id : Int) (sd ed : Option Int) (r : SaleRow) : Bool :=
  r.user_id == user_id &&
    (match sd, ed with
     | some a, some b => decide (a ≤ r.created_at) && decide (r.created_at ≤ b)
     | _, _ => false)

/-- An element of the `latest_orders` JSON array. -/
structure OrderSummary where
  order_id : String
  status : String
  total_amount : Money
  created_at : Int
deriving DecidableEq, Repr

/-- An element of the `top_products` JSON array. -/
structure TopProduct where
  product_id : Int
  product_name : String
  product_price : Money
  total_sold : Int
deriving DecidableEq, Repr

/-- The single row returned by the analytics query. -/
structure AnalyticsRow where
  total_sales_count : Nat
  total_sales_sum : Money
  sales_today : Nat
  total_paid_sum : Money
  paid_percentage : Money
  total_unpaid_sum : Money
  unpaid_percentage : Money
  average_invoice : Money
  profit : Money
  latest_orders : List OrderSummary
  top_products : List TopProduct
deriving DecidableEq, Repr

/-- The `sales_items ⋈ local_products ⋈ sales` row of the `top_products_base`
CTE, before grouping. -/
structure JoinedItem where
  product_id : Int
  sku_name : String
  product_price : Money
  quantity : Int
deriving DecidableEq, Repr

/-- `get_sales_analytics(user_id, start_date, end_date)`: the single
composed query of CTEs; `todayStart` stands for `NOW()::DATE`, the start of
the current day.  Each aggregate mirrors one CTE / output column:

  * `sales_summary`: count, `COALESCE(SUM(total_amount), 0)` and the
    `COUNT(*) FILTER (WHERE created_at >= NOW()::DATE)` column, all over the
    windowed rows;
  * `paid_unpaid_summary`: sums of `total_amount` for `status = 'paid'` and
    `status = 'unpaid'`;
  * the percentage columns
    `ROUND(COALESCE((sum / NULLIF(total, 0)) * 100, 0), 2)`;
  * `avg_invoice`: `COALESCE(AVG(total_amount), 0)`;
  * `profit_calc`: `COALESCE(SUM(price*quantity) - SUM(cost_price*quantity), 0)`
    over the items of windowed sales;
  * `latest_orders_base`: five newest windowed sales, newest first;
  * `top_products_base`: items joined with `local_products`, grouped by
    `(product_id, sku_name, price)`, top five by total quantity sold. -/
def windowSales (st : DBState) (user_id : Int) (sd ed : Option Int) : List SaleRow :=
  st.sales.filter (inWindowB user_id sd ed)

/-- Items of the windowed sales (`sales_items` joined with windowed `sales`). -/
def windowItems (st : DBState) (ws : List SaleRow) : List SaleItemRow :=
  st.sales_items.filter (fun i => ws.any (fun r => r.id == i.sale_id))

/-- The `latest_orders` JSON array: five newest windowed sales. -/
def latestOrdersCalc (ws : List SaleRow) : List OrderSummary :=
  ((sortL (fun a b => decide (b.created_at ≤ a.created_at)) ws).take 5).map
    (fun r => { order_id := r.order_id, status := r.status,
                total_amount := r.total_amount, created_at := r.created_at })

/-- The `top_products_base` CTE: windowed items inner-joined with
`local_products`, grouped by `(product_id, sku_name, price)` with
`SUM(quantity)`, top five by quantity sold. -/
def topProductsCalc (st : DBState) (wsItems : List SaleItemRow) : List TopProduct :=
  let joined := wsItems.filterMap (fun i =>
    (st.local_products.find? (fun p => p.id == i.product_id)).map (fun p =>
      ({ product_id := i.product_id, sku_name := p.sku_name,
         product_price := p.price, quantity := i.quantity } : JoinedItem)))
  let keys := (joined.map (fun j => (j.product_id, j.sku_name, j.product_price))).dedup
  ((sortL (fun a b => decide (b.total_sold ≤ a.total_sold))
    (keys.map (fun k =>
      ({ product_id := k.1, product_name := k.2.1, product_price := k.2.2,
         total_sold := ((joined.filter (fun j =>
           decide ((j.product_id, j.sku_name, j.product_price) = k))).map
             (fun j => j.quantity)).sum } : TopProduct)))).take 5)

def get_sales_analytics (st : DBState) (user_id : Int) (sd ed : Option Int)
    (todayStart : Int) : AnalyticsRow :=
  let ws := windowSales st user_id sd ed
  let total_sales_sum := (ws.map (fun r => r.total_amount)).sum
  let total_paid_sum :=
    (ws.map (fun r => if r.status = "paid" then r.total_amount else 0)).sum
  let total_unpaid_sum :=
    (ws.map (fun r => if r.status = "unpaid" then r.total_amount else 0)).sum
  let wsItems := windowItems st ws
  { total_sales_count := ws.length,
    total_sales_sum := total_sales_sum,
    sales_today := (ws.filter (fun r => decide (todayStart ≤ r.created_at))).length,
    total_paid_sum := total_paid_sum,
    paid_percentage :=
      if total_sales_sum = 0 then 0 else round2 (total_paid_sum / total_sales_sum * 100),
    total_unpaid_sum := total_unpaid_sum,
    unpaid_percentage :=
      if total_sales_sum = 0 then 0 else round2 (total_unpaid_sum / total_sales_sum * 100),
    average_invoice :=
      if ws.length = 0 then 0 else total_sales_sum / (ws.length : Money),
    profit := (wsItems.map (fun i => i.price * (i.quantity : Money))).sum
      - (wsItems.map (fun i => i.cost_price * (i.quantity : Money))).sum,
    latest_orders := latestOrdersCalc ws,
    top_products := topProductsCalc st wsItems }

end SalesDataService

/-! ### SalesService (services/sales_service.py) -/

namespace SalesService

/-- The paginated envelope built by `SalesService.get_sales`. -/
structure Envelope where
  total_count : Nat
  current_page : Int
  total_pages : Int
  limit : Int
  skip : Int
  is_last : Bool
  content : List SalesDataService.ListedSale
deriving DecidableEq, Repr

/-- `SalesService.get_sales`: count, page, then the envelope arithmetic
`current_page = (skip // limit) + 1 if limit > 0 else 1`,
`total_pages = (total_count + limit - 1) // limit if limit > 0 else 1`,
`is_last = current_page >= total_pages`.  A raised data-store error is
logged and re-raised. -/
def get_sales (st : DBState) (user_id : Int) (skip limit : Int)
    (search sort_by : Option String) (sort_order : String)
    (sd ed : Option Int) : PyOutcome Envelope :=
  let total_count := SalesDataService.get_sales_count st user_id sd ed search
  match SalesDataService.get_sales st user_id skip limit search sort_by sort_order sd ed with
  | .exn e => .exn e
  | .ret sales =>
    let current_page : Int := if 0 < limit then skip / limit + 1 else 1
    let total_pages : Int :=
      if 0 < limit then ((total_count : Int) + limit - 1) / limit else 1
    let is_last := decide (current_page ≥ total_pages)
    .ret { total_count := total_count, current_page := current_page,
           total_pages := total_pages, limit := limit, skip := skip,
           is_last := is_last, content := sales }

/-- `SalesService.create_sale`: thin delegation; the `try`/`except` logs and
re-raises, so the data-store outcome (including the `False` sentinel the
data store returns after catching a persistence error) passes through
unchanged. -/
def create_sale (st : DBState) (now : Int) (user_id : Int)
    (items : List SaleItemInput) (currency payment_method status : String)
    (failAt : Option Nat) : PyOutcome CreateSaleValue × DBState :=
  SalesDataService.create_sale st now user_id items currency payment_method status failAt

/-- `SalesService.change_status`: calls `update_sale_status`, discards its
boolean result, and returns `True` unconditionally (its `except` branch only
re-raises exceptions, which `update_sale_status` never lets escape). -/
def change_status (st : DBState) (order_id status : String) : Bool × DBState :=
  (true, (SalesDataService.update_sale_status st order_id status).2)

/-- `SalesService.confirm_payment`: returns `False` when the order does not
exist; returns `True` without writing when the status is already `"paid"`;
otherwise updates the status to `"paid"` and returns the update's result. -/
def confirm_payment (st : DBState) (order_id : String) : Bool × DBState :=
  match SalesDataService.get_sale_details st order_id with
  | none => (false, st)
  | some d =>
    if d.status = "paid" then (true, st)
    else SalesDataService.update_sale_status st order_id "paid"

/-- `SalesService.cancel_sale`: delegation to the data store. -/
def cancel_sale (st : DBState) (order_id : String) : Bool × DBState :=
  SalesDataService.cancel_sale st order_id

/-- `SalesService.get_sale_info`: pass-through to `get_sale_details`. -/
def get_sale_info (st : DBState) (order_id : String) :
    Option SalesDataService.SaleDetails :=
  SalesDataService.get_sale_details st order_id

/-- `SalesService.get_sales_analytics`: delegation (`except` re-raises). -/
def get_sales_analytics (st : DBState) (user_id : Int) (sd ed : Option Int)
    (todayStart : Int) : SalesDataService.AnalyticsRow :=
  SalesDataService.get_sales_analytics st user_id sd ed todayStart

end SalesService

/-! ### Derived predicates and concrete states used by the verification -/

/-- No existing sale row already carries the order id that the next
`create_sale` attempt will generate (true in every state reachable from the
seeded database, since order ids are minted from the strictly increasing
counter). -/
def freshOid (st : DBState) : Prop :=
  ∀ r ∈ st.sales, r.order_id ≠ ordIdStr (st.counter + 1)

/-- The `sales.id` serial dominates every id already present (true in every
reachable state). -/
def freshIds (st : DBState) : Prop :=
  (∀ r ∈ st.sales, r.id < st.nextSaleId) ∧
  (∀ i ∈ st.sales_items, i.sale_id < st.nextSaleId)

/-- The item rows belonging to the sale with surrogate key `sid`. -/
def itemsOf (st : DBState) (sid : Nat) : List SaleItemRow :=
  st.sales_items.filter (fun i => i.sale_id == sid)

/-- Total consistency of the sale(s) with order id `oid`: the stored
`total_amount` equals the sum of `price * quantity` over the sale's item
rows, and each item row stores `total = price * quantity`. -/
def saleTotalsOk (st : DBState) (oid : String) : Prop :=
  ∀ r ∈ st.sales, r.order_id = oid →
    r.total_amount = ((itemsOf st r.id).map (fun i => i.price * (i.quantity : Money))).sum ∧
    ∀ i ∈ itemsOf st r.id, i.total = i.price * (i.quantity : Money)

/-- The all-zero analytics structure (zeros and empty lists). -/
def zeroAnalytics : SalesDataService.AnalyticsRow :=
  { total_sales_count := 0, total_sales_sum := 0, sales_today := 0,
    total_paid_sum := 0, paid_percentage := 0, total_unpaid_sum := 0,
    unpaid_percentage := 0, average_invoice := 0, profit := 0,
    latest_orders := [], top_products := [] }

/-- The freshly seeded database: counter at 10000, all tables empty. -/
def emptyState : DBState :=
  { counter := 10000, nextSaleId := 1, sales := [], sales_items := [],
    receipts := [], local_products := [] }

/-- A sample line item: 2 units at price 5, cost 3. -/
def sampleItem : SaleItemInput :=
  { product_id := 1, quantity := 2, price := 5, cost_price := 3,
    product_name := some "Widget", barcode := none }

/-- A database holding a single pending sale of user 1 created at time 100. -/
def todaySaleState : DBState :=
  { counter := 10001, nextSaleId := 2,
    sales := [{ id := 1, order_id := "ORD-10001", user_id := 1, total_amount := 10,
                currency := "KZT", status := "pending", created_at := 100,
                updated_at := 100 }],
    sales_items := [], receipts := [], local_products := [] }

/-- A database holding a single `paid` sale of user 1. -/
def paidState : DBState :=
  { counter := 10001, nextSaleId := 2,
    sales := [{ id := 1, order_id := "ORD-10001", user_id := 1, total_amount := 10,
                currency := "KZT", status := "paid", created_at := 0,
                updated_at := 0 }],
    sales_items := [], receipts := [], local_products := [] }

/-- The row of `paidState` after its status was reset to `"pending"`. -/
def paidRowPending : SaleRow :=
  { id := 1, order_id := "ORD-10001", user_id := 1, total_amount := 10,
    currency := "KZT", status := "pending", created_at := 0, updated_at := 0 }

/-- The sale detail dictionary of the single sale of `todaySaleState`. -/
def pendingDetails : SalesDataService.SaleDetails :=
  { order_id := "ORD-10001", user_id := 1, total_amount := 10, currency := "KZT",
    status := "pending", created_at := 100, updated_at := 100, items := [] }

/-- `k`-th sale row of the 25-row listing fixture. -/
def mkSale (k : Nat) : SaleRow :=
  { id := k + 1, order_id := ordIdStr (10001 + k), user_id := 1, total_amount := 1,
    currency := "KZT", status := "pending", created_at := Int.ofNat k,
    updated_at := Int.ofNat k }

/-- A database holding 25 sales of user 1. -/
def st25 : DBState :=
  { counter := 10025, nextSaleId := 26, sales := (List.range 25).map mkSale,
    sales_items := [], receipts := [], local_products := [] }

/-- The envelope returned for `skip = 20`, `limit = 10` over `st25`. -/
def env25 : SalesService.Envelope :=
  { total_count := 25, current_page := 3, total_pages := 3, limit := 10,
    skip := 20, is_last := true,
    content := (((List.range 25).map mkSale).drop 20).map
      (fun r => { sale := r, items := [] }) }

instance (st : DBState) : Decidable (freshOid st) :=
  inferInstanceAs (Decidable (∀ r ∈ st.sales, r.order_id ≠ ordIdStr (st.counter + 1)))

instance (st : DBState) : Decidable (freshIds st) :=
  inferInstanceAs (Decidable ((∀ r ∈ st.sales, r.id < st.nextSaleId) ∧
    (∀ i ∈ st.sales_items, i.sale_id < st.nextSaleId)))

instance (st : DBState) (oid : String) : Decidable (saleTotalsOk st oid) :=
  inferInstanceAs (Decidable (∀ r ∈ st.sales, r.order_id = oid →
    r.total_amount = ((itemsOf st r.id).map (fun i => i.price * (i.quantity : Money))).sum ∧
    ∀ i ∈ itemsOf st r.id, i.total = i.price * (i.quantity : Money)))

/-! ### Helper lemmas -/

theorem filterConstFalse {α : Type} (l : List α) : l.filter (fun _ => false) = [] := by
  induction l with
  | nil => rfl
  | cons a l ih => simp

theorem sortL_nil {α : Type} (le : α → α → Bool) : sortL le [] = [] := rfl

/-! ### Claim theorems -/

/-- C5: the claim that `update_sale_status` returns true iff exactly one
sales row matched `order_id` holds, but `change_status` does not signal
failure when no row was updated: it discards the data-layer boolean and
returns `True` unconditionally, as evaluated here on a database with no
matching row. -/
theorem C5_change_status_ignores_update_result :
    (∀ st oid s, ((SalesDataService.update_sale_status st oid s).1 = true ↔
        (st.sales.filter (fun r => r.order_id == oid)).length = 1)) ∧
    (SalesService.change_status emptyState "ORD-10001" "paid").1 = true ∧
    (SalesDataService.update_sale_status emptyState "ORD-10001" "paid").1 = false := by
  refine ⟨?_, by decide, by decide⟩
  intro st oid s
  simp [SalesDataService.update_sale_status]

/-- C8 (counterexample): a sale of user 1 created at time 100 — today, since
the current day starts at 50 — is outside the query window `[0, 10]`, so the
code reports `sales_today = 0` although the user has one sale with
`created_at` on or after the start of the current day; the `FILTER` clause
sits on top of the window's WHERE clause and is not independent of it. -/
theorem C8_sales_today_counterexample :
    (SalesDataService.get_sales_analytics todaySaleState 1 (some 0) (some 10) 50).sales_today
        = 0 ∧
    (todaySaleState.sales.filter
        (fun r => r.user_id == 1 && decide (50 ≤ r.created_at))).length = 1 := by
  constructor
  · decide
  · decide

/-- C8 (amended): `sales_today` counts the sales that lie inside the
`[start_date, end_date]` window AND whose `created_at` is on or after the
start of the current day — not all of the user's sales of the day. -/
theorem C8_sales_today_amended (st : DBState) (uid a b today : Int) :
    (SalesDataService.get_sales_analytics st uid (some a) (some b) today).sales_today
      = (st.sales.filter (fun r =>
          SalesDataService.inWindowB uid (some a) (some b) r
            && decide (today ≤ r.created_at))).length := by
  simp only [SalesDataService.get_sales_analytics, SalesDataService.windowSales,
    List.filter_filter]
  congr 1
  apply List.filter_congr
  intro x _
  exact Bool.and_comm _ _

/-- C9: a user/window with no sales yields the fully populated all-zero
analytics structure (zeros and empty lists), and the percentage divisions
are guarded: whenever `total_sales_sum` is 0, both percentages are 0. -/
theorem C9_analytics_zero_state :
    (∀ st uid sd ed today, SalesDataService.windowSales st uid sd ed = [] →
        SalesDataService.get_sales_analytics st uid sd ed today = zeroAnalytics) ∧
    (∀ st uid sd ed today,
        (SalesDataService.get_sales_analytics st uid sd ed today).total_sales_sum = 0 →
        (SalesDataService.get_sales_analytics st uid sd ed today).paid_percentage = 0 ∧
        (SalesDataService.get_sales_analytics st uid sd ed today).unpaid_percentage = 0) := by
  constructor
  · intro st uid sd ed today h
    simp only [SalesDataService.get_sales_analytics, h, SalesDataService.windowItems,
      SalesDataService.latestOrdersCalc, SalesDataService.topProductsCalc,
      List.any_nil, List.filter_nil, List.map_nil, List.sum_nil, List.length_nil,
      List.take_nil, List.filterMap_nil, sortL_nil, filterConstFalse, List.dedup_nil]
    simp [zeroAnalytics]
  · intro st uid sd ed today h
    simp only [SalesDataService.get_sales_analytics] at h ⊢
    rw [if_pos h, if_pos h]
    exact ⟨rfl, rfl⟩

/-- C9 (witness): the empty database with window `[0, 10]` produces the
all-zero structure, and its percentages are 0. -/
theorem C9_analytics_zero_state_witness :
    SalesDataService.get_sales_analytics emptyState 1 (some 0) (some 10) 0 = zeroAnalytics ∧
    ((SalesDataService.get_sales_analytics emptyState 1 (some 0) (some 10) 0).paid_percentage = 0 ∧
     (SalesDataService.get_sales_analytics emptyState 1 (some 0) (some 10) 0).unpaid_percentage = 0) :=
  ⟨C9_analytics_zero_state.1 emptyState 1 (some 0) (some 10) 0 rfl,
   C9_analytics_zero_state.2 emptyState 1 (some 0) (some 10) 0 rfl⟩

theorem create_sale_fail_eq (st : DBState) (now uid : Int) (items : List SaleItemInput)
    (c pm s : String) (j : Nat) (hj : j < items.length + 2) :
    SalesDataService.create_sale st now uid items c pm s (some j)
      = (.ret .falseVal, { st with counter := st.counter + 1 }) := by
  have hd : SalesDataService.injectedFail items.length (some j) = true := by
    simp [SalesDataService.injectedFail]
    omega
  unfold SalesDataService.create_sale SalesDataService.generate_order_id
  simp [hd]

/-- C1 (counterexample): injecting a failure into the first item insert of a
`create_sale` attempt on the seeded empty database leaves the counter at
10001, not 10000 — the order-counter increment is NOT rolled back, because
`generate_order_id` commits in a transaction of its own before the
sale/items/receipt transaction begins. -/
theorem C1_rollback_counterexample :
    (SalesDataService.create_sale emptyState 0 1 [sampleItem] "KZT" "cash" "pending"
        (some 1)).2.counter = 10001 ∧
    emptyState.counter = 10000 :=
  ⟨by decide, rfl⟩

/-- C1 (amended): when inserting one of the k item rows or the receipt row
fails, the Sale row, all item rows and the Receipt row of the attempt are
absent afterward and `get_sale_info` on the attempted order id returns
not-found — but the order-counter increment survives, having been committed
separately by `generate_order_id`. -/
theorem C1_rollback_amended (st : DBState) (now uid : Int) (items : List SaleItemInput)
    (c pm s : String) (j : Nat) (_hj1 : 1 ≤ j) (hj2 : j ≤ items.length + 1)
    (hfresh : freshOid st) :
    (SalesDataService.create_sale st now uid items c pm s (some j)).1 = .ret .falseVal ∧
    (SalesDataService.create_sale st now uid items c pm s (some j)).2.sales = st.sales ∧
    (SalesDataService.create_sale st now uid items c pm s (some j)).2.sales_items
        = st.sales_items ∧
    (SalesDataService.create_sale st now uid items c pm s (some j)).2.receipts
        = st.receipts ∧
    (SalesDataService.create_sale st now uid items c pm s (some j)).2.counter
        = st.counter + 1 ∧
    SalesService.get_sale_info
        (SalesDataService.create_sale st now uid items c pm s (some j)).2
        (ordIdStr (st.counter + 1)) = none := by
  rw [create_sale_fail_eq st now uid items c pm s j (by omega)]
  refine ⟨rfl, rfl, rfl, rfl, rfl, ?_⟩
  have hf : st.sales.find? (fun r => r.order_id == ordIdStr (st.counter + 1)) = none := by
    apply List.find?_eq_none.mpr
    intro x hx
    simpa using hfresh x hx
  simp [SalesService.get_sale_info, SalesDataService.get_sale_details, hf]

/-- C1 (witness): the amended statement instantiated on the seeded empty
database with one item and a failure injected into the item insert. -/
theorem C1_rollback_amended_witness :
    (SalesDataService.create_sale emptyState 0 1 [sampleItem] "KZT" "cash" "pending"
        (some 1)).1 = .ret .falseVal ∧
    (SalesDataService.create_sale emptyState 0 1 [sampleItem] "KZT" "cash" "pending"
        (some 1)).2.sales = emptyState.sales ∧
    (SalesDataService.create_sale emptyState 0 1 [sampleItem] "KZT" "cash" "pending"
        (some 1)).2.sales_items = emptyState.sales_items ∧
    (SalesDataService.create_sale emptyState 0 1 [sampleItem] "KZT" "cash" "pending"
        (some 1)).2.receipts = emptyState.receipts ∧
    (SalesDataService.create_sale emptyState 0 1 [sampleItem] "KZT" "cash" "pending"
        (some 1)).2.counter = emptyState.counter + 1 ∧
    SalesService.get_sale_info
        (SalesDataService.create_sale emptyState 0 1 [sampleItem] "KZT" "cash" "pending"
          (some 1)).2 (ordIdStr (emptyState.counter + 1)) = none :=
  C1_rollback_amended emptyState 0 1 [sampleItem] "KZT" "cash" "pending" 1
    (by decide) (by decide) (by decide)

/-- C3 (counterexample): a persistence failure injected into the item insert
is caught by the data store, and `SalesService.create_sale` returns the
non-exceptional sentinel `False` to its caller instead of raising. -/
theorem C3_error_propagation_counterexample :
    (SalesService.create_sale emptyState 0 1 [sampleItem] "KZT" "cash" "pending"
        (some 1)).1 = PyOutcome.ret CreateSaleValue.falseVal := by
  decide

/-- C3 (amended): on any persistence failure inside the insert transaction,
`SalesDataService.create_sale` catches the exception and returns the Python
sentinel `False`, and `SalesService.create_sale` passes that sentinel
through as a normal (non-exceptional) return value. -/
theorem C3_error_propagation_amended (st : DBState) (now uid : Int)
    (items : List SaleItemInput) (c pm s : String) (j : Nat)
    (hj : j < items.length + 2) :
    (SalesService.create_sale st now uid items c pm s (some j)).1
      = PyOutcome.ret CreateSaleValue.falseVal := by
  unfold SalesService.create_sale
  rw [create_sale_fail_eq st now uid items c pm s j hj]

/-- C3 (witness): the amended statement at a two-item call whose sale insert
(injection point 0) fails. -/
theorem C3_error_propagation_amended_witness :
    (SalesService.create_sale emptyState 0 1 [sampleItem, sampleItem] "KZT" "cash"
        "pending" (some 0)).1 = PyOutcome.ret CreateSaleValue.falseVal :=
  C3_error_propagation_amended emptyState 0 1 [sampleItem, sampleItem] "KZT" "cash"
    "pending" 0 (by decide)

/-- C4 (counterexample): a `create_sale` call with an empty items list is not
rejected: on the seeded empty database it succeeds, increments the counter
and writes a (total 0, item-less) sale row. -/
theorem C4_validation_counterexample :
    (SalesService.create_sale emptyState 0 1 [] "KZT" "cash" "pending" none).1
        = PyOutcome.ret (CreateSaleValue.oid "ORD-10001") ∧
    (SalesService.create_sale emptyState 0 1 [] "KZT" "cash" "pending" none).2.counter
        = 10001 ∧
    (SalesService.create_sale emptyState 0 1 [] "KZT" "cash" "pending" none).2.sales ≠ [] :=
  ⟨by decide, by decide, by decide⟩

/-- C4 (amended): an item with non-positive quantity or negative
price/cost_price is rejected by the request-model validation (modelled from
the spec as `SaleItem.parse`) before any persistence attempt; but an empty
items list is NOT rejected: `create_sale` proceeds, increments the counter
and writes a sale row with `total_amount = 0` and a receipt row, with no
item rows. -/
theorem C4_validation_amended :
    (∀ pid q p cp pn bc, (q ≤ 0 ∨ p < 0 ∨ cp < 0) →
        SaleItem.parse pid q p cp pn bc = none) ∧
    (∀ st now uid c pm s, freshOid st →
        (SalesDataService.create_sale st now uid [] c pm s none).1
            = .ret (.oid (ordIdStr (st.counter + 1))) ∧
        (SalesDataService.create_sale st now uid [] c pm s none).2
          = { st with
              counter := st.counter + 1
              nextSaleId := st.nextSaleId + 1
              sales := st.sales ++
                [{ id := st.nextSaleId,
                   order_id := ordIdStr (st.counter + 1), user_id := uid,
                   total_amount := 0, currency := c, status := s,
                   created_at := now, updated_at := now }]
              receipts := st.receipts ++
                [{ order_id := ordIdStr (st.counter + 1),
                   user_id := uid, total_amount := 0, payment_method := pm }] }) := by
  constructor
  · intro pid q p cp pn bc h
    unfold SaleItem.parse
    rw [if_neg]
    rintro ⟨h1, h2, h3⟩
    rcases h with h | h | h
    · omega
    · linarith
    · linarith
  · intro st now uid c pm s hfresh
    have hnil : st.sales.filter (fun r => r.order_id == ordIdStr (st.counter + 1)) = [] := by
      apply List.filter_eq_nil_iff.mpr
      intro a ha
      simpa using hfresh a ha
    have hany : st.sales.any (fun r => r.order_id == ordIdStr (st.counter + 1)) = false := by
      rw [List.any_eq_false]
      intro a ha
      simpa using hfresh a ha
    have hmain : SalesDataService.create_sale st now uid [] c pm s none
        = (.ret (.oid (ordIdStr (st.counter + 1))),
           { st with
             counter := st.counter + 1
             nextSaleId := st.nextSaleId + 1
             sales := st.sales ++
               [{ id := st.nextSaleId,
                  order_id := ordIdStr (st.counter + 1), user_id := uid,
                  total_amount := 0, currency := c, status := s,
                  created_at := now, updated_at := now }]
             receipts := st.receipts ++
               [{ order_id := ordIdStr (st.counter + 1),
                  user_id := uid, total_amount := 0, payment_method := pm }] }) := by
      simp only [SalesDataService.create_sale, SalesDataService.generate_order_id,
        SalesDataService.saleTotal, SalesDataService.injectedFail,
        SalesDataService.findSaleId, List.map_nil, List.sum_nil, List.length_nil]
      simp [hany, List.filter_append, hnil]
    rw [hmain]
    exact ⟨rfl, rfl⟩

/-- C4 (witness): the amended statement at a zero-quantity item and at an
empty-items call on the seeded empty database. -/
theorem C4_validation_amended_witness :
    SaleItem.parse 1 0 1 1 none none = none ∧
    ((SalesDataService.create_sale emptyState 0 1 [] "KZT" "cash" "pending" none).1
        = .ret (.oid (ordIdStr (emptyState.counter + 1))) ∧
     (SalesDataService.create_sale emptyState 0 1 [] "KZT" "cash" "pending" none).2
        = { emptyState with
            counter := emptyState.counter + 1
            nextSaleId := emptyState.nextSaleId + 1
            sales := emptyState.sales ++
              [{ id := emptyState.nextSaleId,
                 order_id := ordIdStr (emptyState.counter + 1), user_id := 1,
                 total_amount := 0, currency := "KZT", status := "pending",
                 created_at := 0, updated_at := 0 }]
            receipts := emptyState.receipts ++
              [{ order_id := ordIdStr (emptyState.counter + 1),
                 user_id := 1, total_amount := 0, payment_method := "cash" }] }) :=
  ⟨C4_validation_amended.1 1 0 1 1 none none (Or.inl (by omega)),
   C4_validation_amended.2 emptyState 0 1 "KZT" "cash" "pending" (by decide)⟩

/-- C7 (counterexample): starting from the seeded empty database, a sale is
created with status `pending`, `confirm_payment` moves it to `paid`, and a
`change_status` request for `pending` then moves it straight back from
`paid` to `pending` — the transition the claim says never occurs. -/
theorem C7_state_machine_counterexample :
    ((SalesService.confirm_payment
        (SalesService.create_sale emptyState 0 1 [sampleItem] "KZT" "cash" "pending"
          none).2 "ORD-10001").2.sales.map (fun r => r.status) = ["paid"]) ∧
    ((SalesService.change_status
        (SalesService.confirm_payment
          (SalesService.create_sale emptyState 0 1 [sampleItem] "KZT" "cash" "pending"
            none).2 "ORD-10001").2 "ORD-10001" "pending").2.sales.map
              (fun r => r.status) = ["pending"]) :=
  ⟨by decide, by decide⟩

/-- C7 (amended): the service operations enforce no status state machine:
`change_status` sets any requested status on the matching row regardless of
the current one (so `paid` back to `pending` is reachable), leaving the
other rows untouched; `confirm_payment` only ever writes the status `paid`;
and `cancel_sale` deletes the matching row outright. -/
theorem C7_state_machine_amended :
    (∀ st oid s, ∀ r ∈ (SalesService.change_status st oid s).2.sales,
        (r.order_id = oid → r.status = s) ∧ (r.order_id ≠ oid → r ∈ st.sales)) ∧
    (∀ st oid, ∀ r ∈ (SalesService.confirm_payment st oid).2.sales,
        r ∈ st.sales ∨ r.status = "paid") ∧
    (∀ st oid, (SalesService.cancel_sale st oid).2.sales
        = st.sales.filter (fun r => !(r.order_id == oid))) := by
  refine ⟨?_, ?_, ?_⟩
  · intro st oid s r hr
    simp only [SalesService.change_status, SalesDataService.update_sale_status,
      List.mem_map] at hr
    obtain ⟨r0, hr0, rfl⟩ := hr
    by_cases h : r0.order_id = oid
    · simp [h]
    · simp [h, hr0]
  · intro st oid r hr
    unfold SalesService.confirm_payment at hr
    cases hd : SalesDataService.get_sale_details st oid with
    | none =>
      simp only [hd] at hr
      exact Or.inl hr
    | some d =>
      by_cases hp : d.status = "paid"
      · simp only [hd, if_pos hp] at hr
        exact Or.inl hr
      · simp only [hd, if_neg hp] at hr
        simp only [SalesDataService.update_sale_status, List.mem_map] at hr
        obtain ⟨r0, hr0, rfl⟩ := hr
        by_cases h : r0.order_id = oid
        · simp [h]
        · simp [h, hr0]
  · intro st oid
    rfl

/-- C7 (witness): the amended first conjunct applied to the database holding
one `paid` sale and a `change_status` request for `pending`. -/
theorem C7_state_machine_amended_witness :
    (paidRowPending.order_id = "ORD-10001" → paidRowPending.status = "pending") ∧
    (paidRowPending.order_id ≠ "ORD-10001" → paidRowPending ∈ paidState.sales) :=
  C7_state_machine_amended.1 paidState "ORD-10001" "pending" paidRowPending (by decide)

theorem create_sale_dup_fail (st : DBState) (now uid : Int)
    (items : List SaleItemInput) (c pm s : String)
    (hany : st.sales.any (fun r => r.order_id == ordIdStr (st.counter + 1)) = true) :
    SalesDataService.create_sale st now uid items c pm s none
      = (.ret .falseVal, { st with counter := st.counter + 1 }) := by
  unfold SalesDataService.create_sale SalesDataService.generate_order_id
  simp [hany]

theorem create_sale_success_eq (st : DBState) (now uid : Int)
    (items : List SaleItemInput) (c pm s : String)
    (hany : st.sales.any (fun r => r.order_id == ordIdStr (st.counter + 1)) = false) :
    SalesDataService.create_sale st now uid items c pm s none
      = (.ret (.oid (ordIdStr (st.counter + 1))),
         { st with
           counter := st.counter + 1
           nextSaleId := st.nextSaleId + 1
           sales := st.sales ++
             [{ id := st.nextSaleId, order_id := ordIdStr (st.counter + 1),
                user_id := uid, total_amount := SalesDataService.saleTotal items,
                currency := c, status := s, created_at := now, updated_at := now }]
           sales_items := st.sales_items ++
             items.map (SalesDataService.mkItemRow st.nextSaleId)
           receipts := st.receipts ++
             [{ order_id := ordIdStr (st.counter + 1), user_id := uid,
                total_amount := SalesDataService.saleTotal items,
                payment_method := pm }] }) := by
  have hnil : st.sales.filter (fun r => r.order_id == ordIdStr (st.counter + 1)) = [] := by
    rw [List.filter_eq_nil_iff]
    intro a ha
    exact List.any_eq_false.mp hany a ha
  unfold SalesDataService.create_sale SalesDataService.generate_order_id
    SalesDataService.injectedFail SalesDataService.findSaleId
  simp [hany, List.filter_append, hnil]

theorem saleTotalsOk_update (st : DBState) (oid2 s2 oid : String)
    (h : saleTotalsOk st oid) :
    saleTotalsOk (SalesDataService.update_sale_status st oid2 s2).2 oid := by
  intro r hr hroid
  simp only [SalesDataService.update_sale_status, List.mem_map] at hr
  obtain ⟨r0, hr0, rfl⟩ := hr
  cases hbeq : r0.order_id == oid2 with
  | false =>
    simp only [hbeq, Bool.false_eq_true, if_false] at hroid ⊢
    exact h r0 hr0 hroid
  | true =>
    simp only [hbeq, if_true] at hroid ⊢
    exact h r0 hr0 hroid

theorem saleTotalsOk_create (st : DBState) (now uid : Int)
    (items : List SaleItemInput) (c pm s oid : String)
    (hfresh : freshIds st)
    (hok : (SalesDataService.create_sale st now uid items c pm s none).1
      = .ret (.oid oid)) :
    saleTotalsOk (SalesDataService.create_sale st now uid items c pm s none).2 oid := by
  by_cases hany : st.sales.any (fun r => r.order_id == ordIdStr (st.counter + 1)) = true
  · rw [create_sale_dup_fail st now uid items c pm s hany] at hok
    simp at hok
  · have hany2 : st.sales.any (fun r => r.order_id == ordIdStr (st.counter + 1)) = false := by
      simpa using hany
    rw [create_sale_success_eq st now uid items c pm s hany2] at hok ⊢
    obtain rfl : oid = ordIdStr (st.counter + 1) := by
      cases hok
      rfl
    have hfilter : (st.sales_items ++
        items.map (SalesDataService.mkItemRow st.nextSaleId)).filter
          (fun i => i.sale_id == st.nextSaleId)
        = items.map (SalesDataService.mkItemRow st.nextSaleId) := by
      rw [List.filter_append]
      have h1 : st.sales_items.filter (fun i => i.sale_id == st.nextSaleId) = [] := by
        rw [List.filter_eq_nil_iff]
        intro i hi
        have hlt := hfresh.2 i hi
        simp
        omega
      have h2 : (items.map (SalesDataService.mkItemRow st.nextSaleId)).filter
          (fun i => i.sale_id == st.nextSaleId)
          = items.map (SalesDataService.mkItemRow st.nextSaleId) := by
        rw [List.filter_eq_self]
        intro i hi
        rw [List.mem_map] at hi
        obtain ⟨it, _, rfl⟩ := hi
        simp [SalesDataService.mkItemRow]
      rw [h1, h2, List.nil_append]
    intro r hr hroid
    simp only [itemsOf] at hr ⊢
    rw [List.mem_append] at hr
    rcases hr with hr | hr
    · exfalso
      have hne := List.any_eq_false.mp hany2 r hr
      simp only [beq_iff_eq] at hne
      exact hne hroid
    · have hrr := List.mem_singleton.mp hr
      subst hrr
      dsimp only
      rw [hfilter]
      constructor
      · unfold SalesDataService.saleTotal
        rw [List.map_map]
        rfl
      · intro i hi
        rw [List.mem_map] at hi
        obtain ⟨it, _, rfl⟩ := hi
        rfl

theorem saleTotalsOk_confirm (st : DBState) (oid2 oid : String)
    (h : saleTotalsOk st oid) :
    saleTotalsOk (SalesService.confirm_payment st oid2).2 oid := by
  unfold SalesService.confirm_payment
  cases hd : SalesDataService.get_sale_details st oid2 with
  | none =>
    simp only [hd]
    exact h
  | some d =>
    by_cases hp : d.status = "paid"
    · simp only [hd, if_pos hp]
      exact h
    · simp only [hd, if_neg hp]
      exact saleTotalsOk_update st oid2 "paid" oid h

/-- C2: for every successfully created sale, `total_amount` equals the sum of
`price * quantity` over its item rows and each stored item's `total` column
equals `price * quantity`; and `update_sale_status`, `change_status` and
`confirm_payment` preserve this invariant (they only touch the status
column), so it holds in every state of the sale reachable through those
operations. -/
theorem C2_total_consistency :
    (∀ st now uid items c pm s oid, freshIds st →
        (SalesDataService.create_sale st now uid items c pm s none).1
            = .ret (.oid oid) →
        saleTotalsOk (SalesDataService.create_sale st now uid items c pm s none).2 oid) ∧
    (∀ st oid2 s2 oid, saleTotalsOk st oid →
        saleTotalsOk (SalesDataService.update_sale_status st oid2 s2).2 oid) ∧
    (∀ st oid2 s2 oid, saleTotalsOk st oid →
        saleTotalsOk (SalesService.change_status st oid2 s2).2 oid) ∧
    (∀ st oid2 oid, saleTotalsOk st oid →
        saleTotalsOk (SalesService.confirm_payment st oid2).2 oid) :=
  ⟨fun st now uid items c pm s oid hf hok =>
      saleTotalsOk_create st now uid items c pm s oid hf hok,
   fun st oid2 s2 oid h => saleTotalsOk_update st oid2 s2 oid h,
   fun st oid2 s2 oid h => saleTotalsOk_update st oid2 s2 oid h,
   fun st oid2 oid h => saleTotalsOk_confirm st oid2 oid h⟩

/-- C2 (witness): creating a sale from the seeded empty database establishes
the invariant, and each status operation preserves it along a concrete
chain of calls. -/
theorem C2_total_consistency_witness :
    saleTotalsOk
      (SalesDataService.create_sale emptyState 0 1 [sampleItem] "KZT" "cash" "pending"
        none).2 "ORD-10001" ∧
    saleTotalsOk
      (SalesDataService.update_sale_status
        (SalesDataService.create_sale emptyState 0 1 [sampleItem] "KZT" "cash" "pending"
          none).2 "ORD-10001" "paid").2 "ORD-10001" ∧
    saleTotalsOk
      (SalesService.change_status
        (SalesDataService.create_sale emptyState 0 1 [sampleItem] "KZT" "cash" "pending"
          none).2 "ORD-10001" "paid").2 "ORD-10001" ∧
    saleTotalsOk
      (SalesService.confirm_payment
        (SalesDataService.create_sale emptyState 0 1 [sampleItem] "KZT" "cash" "pending"
          none).2 "ORD-10001").2 "ORD-10001" := by
  have h1 := C2_total_consistency.1 emptyState 0 1 [sampleItem] "KZT" "cash" "pending"
    "ORD-10001" (by decide) (by decide)
  exact ⟨h1,
    C2_total_consistency.2.1 _ "ORD-10001" "paid" "ORD-10001" h1,
    C2_total_consistency.2.2.1 _ "ORD-10001" "paid" "ORD-10001" h1,
    C2_total_consistency.2.2.2 _ "ORD-10001" "ORD-10001" h1⟩

theorem find_status_update (l : List SaleRow) (oid s : String) :
    (l.map (fun r => if r.order_id == oid then { r with status := s } else r)).find?
        (fun r => r.order_id == oid)
      = (l.find? (fun r => r.order_id == oid)).map (fun r => { r with status := s }) := by
  induction l with
  | nil => rfl
  | cons a l ih =>
    cases hbeq : a.order_id == oid with
    | false =>
      simp only [List.map_cons, List.find?_cons, hbeq, Bool.false_eq_true, if_false]
      exact ih
    | true =>
      simp only [List.map_cons, List.find?_cons, hbeq, eq_self_iff_true, if_true]
      rfl

theorem get_sale_details_update_paid (st : DBState) (oid : String) (sale : SaleRow)
    (hfind : st.sales.find? (fun r => r.order_id == oid) = some sale) :
    ∃ d2, SalesDataService.get_sale_details
        (SalesDataService.update_sale_status st oid "paid").2 oid = some d2 ∧
      d2.status = "paid" := by
  unfold SalesDataService.get_sale_details SalesDataService.update_sale_status
  simp only
  rw [find_status_update, hfind]
  exact ⟨_, rfl, rfl⟩

theorem confirm_nonpaid (st : DBState) (oid : String) (d : SalesDataService.SaleDetails)
    (hd : SalesDataService.get_sale_details st oid = some d) (hnp : d.status ≠ "paid") :
    SalesService.confirm_payment st oid
      = SalesDataService.update_sale_status st oid "paid" := by
  unfold SalesService.confirm_payment
  simp only [hd, if_neg hnp]

theorem update_paid_status (st : DBState) (oid : String) :
    ∀ r ∈ (SalesDataService.update_sale_status st oid "paid").2.sales,
      r.order_id = oid → r.status = "paid" := by
  intro r hr hroid
  simp only [SalesDataService.update_sale_status, List.mem_map] at hr
  obtain ⟨r0, hr0, rfl⟩ := hr
  cases hbeq : r0.order_id == oid with
  | true => simp [hbeq]
  | false =>
    simp only [hbeq, Bool.false_eq_true, if_false] at hroid ⊢
    exact absurd hroid (by simpa using hbeq)

theorem update_bool_true (st : DBState) (oid s : String)
    (huniq : (st.sales.filter (fun r => r.order_id == oid)).length = 1) :
    (SalesDataService.update_sale_status st oid s).1 = true := by
  simp [SalesDataService.update_sale_status, huniq]

theorem details_find (st : DBState) (oid : String) (d : SalesDataService.SaleDetails)
    (hd : SalesDataService.get_sale_details st oid = some d) :
    ∃ sale, st.sales.find? (fun r => r.order_id == oid) = some sale := by
  unfold SalesDataService.get_sale_details at hd
  cases hf : st.sales.find? (fun r => r.order_id == oid) with
  | none =>
    rw [hf] at hd
    simp at hd
  | some sale => exact ⟨sale, rfl⟩

/-- C6: `confirm_payment` is idempotent — for an existing order already
`paid` it returns success without touching the state; for an existing
non-paid order it returns success and moves the matching row to `paid`
(given the unique order id); called on a pending order, the first call
succeeds and yields status `paid` and the second call succeeds with no
state change; and for an order id with no matching sale it returns failure
with the state unchanged. -/
theorem C6_confirm_payment_idempotent :
    (∀ st oid d, SalesDataService.get_sale_details st oid = some d →
        d.status = "paid" → SalesService.confirm_payment st oid = (true, st)) ∧
    (∀ st oid d, SalesDataService.get_sale_details st oid = some d →
        d.status ≠ "paid" →
        (st.sales.filter (fun r => r.order_id == oid)).length = 1 →
        (SalesService.confirm_payment st oid).1 = true ∧
        (∀ r ∈ (SalesService.confirm_payment st oid).2.sales,
            r.order_id = oid → r.status = "paid")) ∧
    (∀ st oid d, SalesDataService.get_sale_details st oid = some d →
        d.status = "pending" →
        (st.sales.filter (fun r => r.order_id == oid)).length = 1 →
        (SalesService.confirm_payment st oid).1 = true ∧
        (∀ r ∈ (SalesService.confirm_payment st oid).2.sales,
            r.order_id = oid → r.status = "paid") ∧
        SalesService.confirm_payment (SalesService.confirm_payment st oid).2 oid
          = (true, (SalesService.confirm_payment st oid).2)) ∧
    (∀ st oid, SalesDataService.get_sale_details st oid = none →
        SalesService.confirm_payment st oid = (false, st)) := by
  refine ⟨?_, ?_, ?_, ?_⟩
  · intro st oid d hd hp
    unfold SalesService.confirm_payment
    simp only [hd, if_pos hp]
  · intro st oid d hd hnp huniq
    rw [confirm_nonpaid st oid d hd hnp]
    exact ⟨update_bool_true st oid "paid" huniq, update_paid_status st oid⟩
  · intro st oid d hd hpend huniq
    have hnp : d.status ≠ "paid" := by
      rw [hpend]
      decide
    rw [confirm_nonpaid st oid d hd hnp]
    refine ⟨update_bool_true st oid "paid" huniq, update_paid_status st oid, ?_⟩
    obtain ⟨sale, hfind⟩ := details_find st oid d hd
    obtain ⟨d2, hd2, hst2⟩ := get_sale_details_update_paid st oid sale hfind
    unfold SalesService.confirm_payment
    simp only [hd2, if_pos hst2]
  · intro st oid hd
    unfold SalesService.confirm_payment
    simp only [hd]

/-- C6 (witness): the pending-order conjunct applied to a database with one
pending sale: the first call succeeds and sets `paid`, the second call is a
success with no state change. -/
theorem C6_confirm_payment_idempotent_witness :
    (SalesService.confirm_payment todaySaleState "ORD-10001").1 = true ∧
    (∀ r ∈ (SalesService.confirm_payment todaySaleState "ORD-10001").2.sales,
        r.order_id = "ORD-10001" → r.status = "paid") ∧
    SalesService.confirm_payment
        (SalesService.confirm_payment todaySaleState "ORD-10001").2 "ORD-10001"
      = (true, (SalesService.confirm_payment todaySaleState "ORD-10001").2) :=
  C6_confirm_payment_idempotent.2.2.1 todaySaleState "ORD-10001" pendingDetails
    (by decide) (by decide) (by decide)

theorem ceil_div_facts (t l : Nat) (hl : 0 < l) :
    t ≤ ((t + l - 1) / l) * l ∧ ((t + l - 1) / l) * l < t + l := by
  constructor
  · match t with
    | 0 => exact Nat.zero_le _
    | Nat.succ t1 =>
      have h1 : Nat.succ t1 + l - 1 = t1 + l := by omega
      rw [h1, Nat.add_div_right _ hl]
      have h2 := Nat.div_add_mod t1 l
      have h3 : t1 % l < l := Nat.mod_lt _ hl
      have h4 : (t1 / l + 1) * l = l * (t1 / l) + l := by ring
      rw [h4]
      generalize l * (t1 / l) = X at h2 ⊢
      omega
  · have h5 := Nat.div_mul_le_self (t + l - 1) l
    generalize (t + l - 1) / l * l = Y at h5 ⊢
    omega

theorem ceil_div_eq (t l : Nat) (hl : 0 < l) :
    (((t + l - 1) / l : Nat) : Int) = ⌈(t : ℚ) / (l : ℚ)⌉ := by
  obtain ⟨h1, h2⟩ := ceil_div_facts t l hl
  have hlq : (0 : ℚ) < (l : ℚ) := by exact_mod_cast hl
  symm
  rw [Int.ceil_eq_iff]
  constructor
  · rw [lt_div_iff₀ hlq]
    have h2q : (((t + l - 1) / l : Nat) : ℚ) * (l : ℚ) < (t : ℚ) + (l : ℚ) := by
      exact_mod_cast h2
    rw [Int.cast_natCast]
    nlinarith [h2q]
  · rw [div_le_iff₀ hlq, Int.cast_natCast]
    exact_mod_cast h1

theorem int_pages_eq_ceil (t : Nat) (limit : Int) (hlim : 0 < limit) :
    ((t : Int) + limit - 1) / limit = ⌈(t : ℚ) / (limit : ℚ)⌉ := by
  have hll : limit = ((limit.toNat : Nat) : Int) := (Int.toNat_of_nonneg (le_of_lt hlim)).symm
  have hlpos : 0 < limit.toNat := by omega
  rw [hll]
  have hcast : ((t : Int) + ((limit.toNat : Nat) : Int) - 1)
      = ((t + limit.toNat - 1 : Nat) : Int) := by omega
  rw [hcast, ← Int.natCast_div, ceil_div_eq t limit.toNat hlpos, Int.cast_natCast]

/-- C10: for `limit > 0` the envelope satisfies
`current_page = skip / limit + 1` (integer division),
`total_pages = ceil(total_count / limit)` and
`is_last = (current_page >= total_pages)`; but for `limit <= 0` the result is
NOT one page containing every matching sale: `limit = 0` yields an empty
page (SQL `LIMIT 0`) with the envelope arithmetic guarded to one page, and a
negative `limit` makes the underlying query raise. -/
theorem C10_pagination :
    (∀ st uid skip limit search sb so sd ed env, 0 < limit →
        SalesService.get_sales st uid skip limit search sb so sd ed = .ret env →
        env.current_page = skip / limit + 1 ∧
        env.total_pages = ⌈(env.total_count : ℚ) / (limit : ℚ)⌉ ∧
        env.is_last = decide (env.current_page ≥ env.total_pages)) ∧
    (∀ st uid skip search sb so sd ed env,
        SalesService.get_sales st uid skip 0 search sb so sd ed = .ret env →
        env.current_page = 1 ∧ env.total_pages = 1 ∧ env.is_last = true ∧
        env.content = []) ∧
    (∀ st uid skip limit search sb so sd ed, limit < 0 →
        ∃ e, SalesService.get_sales st uid skip limit search sb so sd ed = .exn e) := by
  refine ⟨?_, ?_, ?_⟩
  · intro st uid skip limit search sb so sd ed env hlim hret
    unfold SalesService.get_sales SalesDataService.get_sales at hret
    rcases lt_or_ge skip 0 with hskip | hskip
    · exfalso
      have hg : (decide (limit < 0) || decide (skip < 0)) = true := by
        simp [hskip]
      simp only [hg] at hret
      simp at hret
    · have hg : (decide (limit < 0) || decide (skip < 0)) = false := by
        simp
        omega
      simp only [hg] at hret
      simp only [Bool.false_eq_true, if_false] at hret
      injection hret with h
      subst h
      refine ⟨?_, ?_, ?_⟩
      · simp [hlim]
      · simp only [hlim, if_true]
        simp [int_pages_eq_ceil _ limit hlim]
      · rfl
  · intro st uid skip search sb so sd ed env hret
    unfold SalesService.get_sales SalesDataService.get_sales at hret
    rcases lt_or_ge skip 0 with hskip | hskip
    · exfalso
      have hg : (decide ((0 : Int) < 0) || decide (skip < 0)) = true := by
        simp [hskip]
      simp only [hg] at hret
      simp at hret
    · have hg : (decide ((0 : Int) < 0) || decide (skip < 0)) = false := by
        simp
        omega
      simp only [hg] at hret
      simp only [Bool.false_eq_true, if_false] at hret
      injection hret with h
      subst h
      refine ⟨by simp, by simp, by simp, by simp⟩
  · intro st uid skip limit search sb so sd ed hlim
    refine ⟨"LIMIT/OFFSET must not be negative", ?_⟩
    unfold SalesService.get_sales SalesDataService.get_sales
    have hg : (decide (limit < 0) || decide (skip < 0)) = true := by
      simp [hlim]
    simp only [hg]
    rfl

/-- C10 (counterexample): with one matching sale, `limit = 0` produces an
envelope whose `total_count` is 1 but whose content is the empty page — not
"one page containing every matching sale". -/
theorem C10_pagination_counterexample :
    SalesService.get_sales todaySaleState 1 0 0 none none "asc" none none
      = PyOutcome.ret
          { total_count := 1, current_page := 1, total_pages := 1, limit := 0,
            skip := 0, is_last := true, content := [] } := by
  decide

/-- C10 (witness): the envelope arithmetic instantiated at
`total_count = 25`, `limit = 10`, `skip = 20` over a 25-sale database:
`current_page = 3`, `total_pages = 3`, `is_last = true`. -/
theorem C10_pagination_witness :
    env25.current_page = 20 / 10 + 1 ∧
    env25.total_pages = ⌈(env25.total_count : ℚ) / ((10 : Int) : ℚ)⌉ ∧
    env25.is_last = decide (env25.current_page ≥ env25.total_pages) :=
  C10_pagination.1 st25 1 20 10 none none "asc" none none env25 (by decide) (by decide)
